import Mathlib

/-!
Verification of the blog-post processor service (processor-service-py).

The development shallowly embeds the Python source:
* `json_loads` models the subset of `json.loads` the service relies on
  (null, booleans, integers, escape-free strings, arrays, objects);
* `validateBlogPostMessage` / `validateBlogPostData` model the pydantic
  validation of the inbound message (`BlogPostMessage`, `BlogPostData`);
* `generate_blog_post` models `src/services/blog_generator.py`;
* `process_message` models
  `src/controllers/message_processor.py::process_message`.

External effects (the Firestore client, the AI provider, wall-clock time)
are supplied by an environment record: each fallible store operation and
the provider call is an `Except String` oracle carrying the exception
message it would raise, and the document store touched by the single
post id under consideration is threaded explicitly as a `Store` value.
-/

namespace Blogger

/-- Python values produced by `json.loads`, restricted to the JSON subset. -/
inductive PyJson where
  | null
  | bool (b : Bool)
  | num (n : Int)
  | str (s : String)
  | arr (items : List PyJson)
  | obj (fields : List (String × PyJson))

/-- Opening brace character, by code point. -/
def lbrace : Char := Char.ofNat 123

/-- Closing brace character, by code point. -/
def rbrace : Char := Char.ofNat 125

/-- Drop leading JSON whitespace. -/
def skipWs : List Char → List Char
  | c :: rest =>
    if c = ' ' ∨ c = '\n' ∨ c = '\t' ∨ c = '\r' then skipWs rest else c :: rest
  | [] => []

/-- Read the characters of a JSON string literal up to the closing quote.
Escape sequences are outside the modelled subset and make the parse fail. -/
def readStringChars : List Char → Option (String × List Char)
  | [] => none
  | c :: rest =>
    if c = '\"' then some ("", rest)
    else if c = '\\' then none
    else match readStringChars rest with
      | some (s, rem) => some (String.mk (c :: s.data), rem)
      | none => none

/-- Read a run of decimal digits. -/
def readDigits : List Char → (List Char × List Char)
  | [] => ([], [])
  | c :: rest =>
    if c.isDigit then
      let (ds, rem) := readDigits rest
      (c :: ds, rem)
    else ([], c :: rest)

/-- Digits to a natural number, most significant first. -/
def digitsToNat (ds : List Char) : Nat :=
  ds.foldl (fun acc c => acc * 10 + (c.toNat - 48)) 0

mutual

/-- Parse one JSON value (fuel-bounded recursive descent). -/
def parseVal : Nat → List Char → Option (PyJson × List Char)
  | 0, _ => none
  | fuel + 1, cs =>
    match skipWs cs with
    | 'n' :: 'u' :: 'l' :: 'l' :: rest => some (.null, rest)
    | 't' :: 'r' :: 'u' :: 'e' :: rest => some (.bool true, rest)
    | 'f' :: 'a' :: 'l' :: 's' :: 'e' :: rest => some (.bool false, rest)
    | '\"' :: rest =>
      match readStringChars rest with
      | some (s, rem) => some (.str s, rem)
      | none => none
    | '[' :: rest =>
      (match skipWs rest with
       | ']' :: rem => some (.arr [], rem)
       | other =>
         match parseArrItems fuel other with
         | some (vs, rem) => some (.arr vs, rem)
         | none => none)
    | '-' :: rest =>
      (match readDigits rest with
       | ([], _) => none
       | (ds, rem) => some (.num (-(digitsToNat ds : Int)), rem))
    | c :: rest =>
      if c = lbrace then
        (match skipWs rest with
         | d :: rem =>
           if d = rbrace then some (.obj [], rem)
           else
             match parseObjItems fuel (d :: rem) with
             | some (kvs, rem2) => some (.obj kvs, rem2)
             | none => none
         | [] => none)
      else if c.isDigit then
        (match readDigits (c :: rest) with
         | ([], _) => none
         | (ds, rem) => some (.num (digitsToNat ds : Int), rem))
      else none
    | [] => none

/-- Parse the items of a JSON array after the opening bracket. -/
def parseArrItems : Nat → List Char → Option (List PyJson × List Char)
  | 0, _ => none
  | fuel + 1, cs =>
    match parseVal fuel cs with
    | none => none
    | some (v, rem) =>
      match skipWs rem with
      | ',' :: rest =>
        (match parseArrItems fuel rest with
         | some (vs, rem2) => some (v :: vs, rem2)
         | none => none)
      | ']' :: rest => some ([v], rest)
      | _ => none

/-- Parse the members of a JSON object after the opening brace. -/
def parseObjItems : Nat → List Char → Option (List (String × PyJson) × List Char)
  | 0, _ => none
  | fuel + 1, cs =>
    match skipWs cs with
    | '\"' :: rest =>
      (match readStringChars rest with
       | none => none
       | some (k, rem) =>
         match skipWs rem with
         | ':' :: rest2 =>
           (match parseVal fuel rest2 with
            | none => none
            | some (v, rem2) =>
              match skipWs rem2 with
              | ',' :: rest3 =>
                (match parseObjItems fuel rest3 with
                 | some (kvs, rem3) => some ((k, v) :: kvs, rem3)
                 | none => none)
              | d :: rest3 =>
                if d = rbrace then some ([(k, v)], rest3) else none
              | [] => none)
         | _ => none)
    | _ => none

end

/-- Model of Python `json.loads`: `none` stands for a raised
`json.JSONDecodeError`. -/
def json_loads (s : String) : Option PyJson :=
  match parseVal (s.length + 1) s.data with
  | some (v, rem) => if skipWs rem = [] then some v else none
  | none => none

/-- First binding of a key in a decoded JSON object. -/
def lookupKey (fields : List (String × PyJson)) (k : String) : Option PyJson :=
  match fields.find? (fun p => p.1 = k) with
  | some p => some p.2
  | none => none

/-- Pydantic alias resolution with `populate_by_name`: the alias is
consulted first, then the field name. -/
def lookupAliased (fields : List (String × PyJson)) (al nm : String) : Option PyJson :=
  match lookupKey fields al with
  | some v => some v
  | none => lookupKey fields nm

/-- `BlogPostSection` (blog_generator.py): a subtitle/content pair. -/
structure BlogPostSection where
  subtitle : String
  content : String
deriving Repr, DecidableEq

/-- `BlogPostData` (message_processor.py) after pydantic validation.
`none` stands for the Python value `None`; the pydantic defaults make
`keywords` validate to `[]` and `focus` to `""` when the keys are absent. -/
structure BlogPostData where
  id : String
  title : Option String := none
  content : Option String := none
  keywords : Option (List String) := some []
  focus : Option String := some ""
  regeneration_instructions : Option String := none
  selected_sections : Option (List BlogPostSection) := none
  original_content : Option String := none
  feedback : Option String := none
deriving Repr, DecidableEq

/-- `BlogPostMessage` (message_processor.py) after pydantic validation.
Note that `action` is a bare `str` in the source: the four-value enum is
not part of message validation. -/
structure BlogPostMessage where
  post_id : String
  action : String
  timestamp : Int
  data : BlogPostData
deriving Repr, DecidableEq

/-- Validate an optional string field (`Optional[str]`): absent or null
validates to `None`; any non-string, non-null value is rejected. -/
def optStrField (fields : List (String × PyJson)) (k : String) :
    Except String (Option String) :=
  match lookupKey fields k with
  | none => .ok none
  | some .null => .ok none
  | some (.str s) => .ok (some s)
  | some _ => .error (k ++ ": value is not a valid string")

/-- Validate an optional aliased string field. -/
def optStrAliased (fields : List (String × PyJson)) (al nm : String) :
    Except String (Option String) :=
  match lookupAliased fields al nm with
  | none => .ok none
  | some .null => .ok none
  | some (.str s) => .ok (some s)
  | some _ => .error (al ++ ": value is not a valid string")

/-- Validate a JSON value as a list of strings. -/
def strListFromJson (k : String) : PyJson → Except String (List String)
  | .arr items =>
    items.mapM (fun v =>
      match v with
      | .str s => Except.ok s
      | _ => Except.error (k ++ ": item is not a valid string"))
  | _ => .error (k ++ ": value is not a valid list")

/-- Validate a JSON value as a `BlogPostSection`
(`subtitle` and `content` are required strings; extra keys are ignored). -/
def sectionFromJson : PyJson → Except String BlogPostSection
  | .obj fields =>
    (match lookupKey fields "subtitle", lookupKey fields "content" with
     | some (.str s), some (.str c) => .ok { subtitle := s, content := c }
     | _, _ => .error "validation error for BlogPostSection")
  | _ => .error "BlogPostSection: input is not a mapping"

/-- Model of `BlogPostData.model_validate` on a decoded JSON value. -/
def validateBlogPostData : PyJson → Except String BlogPostData
  | .obj fields => do
    let idv ← match lookupKey fields "id" with
      | some (.str s) => Except.ok s
      | some _ => Except.error "id: value is not a valid string"
      | none => Except.error "id: field required"
    let title ← optStrField fields "title"
    let content ← optStrField fields "content"
    let keywords ← match lookupKey fields "keywords" with
      | none => Except.ok (some [])
      | some .null => Except.ok none
      | some v => (strListFromJson "keywords" v).map some
    let focus ← match lookupKey fields "focus" with
      | none => Except.ok (some "")
      | some .null => Except.ok none
      | some (.str s) => Except.ok (some s)
      | some _ => Except.error "focus: value is not a valid string"
    let regen ← optStrAliased fields "regenerationInstructions" "regeneration_instructions"
    let selSections ← match lookupAliased fields "selectedSections" "selected_sections" with
      | none => Except.ok none
      | some .null => Except.ok none
      | some (.arr items) => (items.mapM sectionFromJson).map some
      | some _ => Except.error "selectedSections: value is not a valid list"
    let origContent ← optStrAliased fields "originalContent" "original_content"
    let feedback ← optStrField fields "feedback"
    Except.ok { id := idv, title := title, content := content, keywords := keywords,
                focus := focus, regeneration_instructions := regen,
                selected_sections := selSections, original_content := origContent,
                feedback := feedback }
  | _ => .error "BlogPostData: input is not an object"

/-- Model of `BlogPostMessage.model_validate` on the decoded payload.
`postId` must be a string, `action` any string, `timestamp` an integer,
and `data` a valid `BlogPostData`. -/
def validateBlogPostMessage : PyJson → Except String BlogPostMessage
  | .obj fields => do
    let pid ← match lookupAliased fields "postId" "post_id" with
      | some (.str s) => Except.ok s
      | some _ => Except.error "postId: value is not a valid string"
      | none => Except.error "postId: field required"
    let act ← match lookupKey fields "action" with
      | some (.str s) => Except.ok s
      | some _ => Except.error "action: value is not a valid string"
      | none => Except.error "action: field required"
    let ts ← match lookupKey fields "timestamp" with
      | some (.num n) => Except.ok n
      | some _ => Except.error "timestamp: value is not a valid integer"
      | none => Except.error "timestamp: field required"
    let d ← match lookupKey fields "data" with
      | some v => validateBlogPostData v
      | none => Except.error "data: field required"
    Except.ok { post_id := pid, action := act, timestamp := ts, data := d }
  | _ => .error "BlogPostMessage: input is not an object"

/-- The `Literal` action values accepted by `ProcessedBlogPost`. -/
def validAction (a : String) : Bool :=
  a = "created" || a = "updated" || a = "deleted" || a = "regenerate"

/-- Original post document read from the source-posts collection during a
regenerate action. `none` on a field stands for an absent key, matching
the `original_post.get(key, default)` reads in the source. -/
structure OriginalPost where
  title : Option String := none
  content : Option String := none
  keywords : Option (List String) := none
  focus : Option String := none
deriving Repr, DecidableEq

/-- The regeneration merge (message_processor.py lines 85-88): each of
title/content/keywords/focus is replaced by the original post's value
whenever the original post has the key, and kept otherwise. -/
def mergeOriginal (op : OriginalPost) (d : BlogPostData) : BlogPostData :=
  { d with
    title := match op.title with | some v => some v | none => d.title
    content := match op.content with | some v => some v | none => d.content
    keywords := match op.keywords with | some v => some v | none => d.keywords
    focus := match op.focus with | some v => some v | none => d.focus }

/-- The persisted job record (`ProcessedBlogPost` plus the extra
`generatedPostId` field written by the completion update). -/
structure JobDoc where
  id : String
  action : String
  timestamp : Int
  status : String
  blogPost : BlogPostData
  processedAt : String
  completedAt : Option String := none
  errorAt : Option String := none
  generatedContent : Option String := none
  sections : Option (List BlogPostSection) := none
  error : Option String := none
  retry_count : Nat := 0
  max_retries : Nat := 100
  generatedPostId : Option String := none
deriving Repr, DecidableEq

/-- The persisted `GeneratedPost` document (blog_generator.py). The
`previous_generation` snapshot pairs content with its timestamp. -/
structure GeneratedPost where
  id : String
  title : String
  original_content : String := ""
  keywords : List String := []
  focus : String := ""
  generated_content : Option String := none
  sections : Option (List BlogPostSection) := none
  generated_at : String
  status : String := "generated"
  previous_generation : Option (String × String) := none
deriving Repr, DecidableEq

/-- The documents stored under the post id under consideration:
the job record in the jobs collection and the generated post in the
generated-posts collection. -/
structure Store where
  jobDoc : Option JobDoc := none
  genDoc : Option GeneratedPost := none
deriving Repr, DecidableEq

/-- Observable events of one invocation: job-record writes (with the
resulting document), generated-post writes, and provider calls. -/
inductive Event where
  | saveJob (id : String) (doc : JobDoc)
  | updateJob (id : String) (doc : JobDoc)
  | saveGen (id : String) (doc : GeneratedPost)
  | providerCall
deriving Repr, DecidableEq

/-- Whether an event is a job-record creation (`save_document` on the
jobs collection). -/
def Event.isSaveJob : Event → Bool
  | .saveJob _ _ => true
  | _ => false

/-- Whether an event is a provider call. -/
def Event.isProviderCall : Event → Bool
  | .providerCall => true
  | _ => false

/-- The status field written by a job-record write event, if any. -/
def Event.jobStatus : Event → Option String
  | .saveJob _ d => some d.status
  | .updateJob _ d => some d.status
  | _ => none

/-- Environment of one invocation: the wall clock, the source-posts
document for this post id, and one oracle per external call, each
carrying the exception message it would raise. -/
structure Env where
  now : String
  sourcePost : Option OriginalPost := none
  adapterInit : Except String Unit := .ok ()
  providerText : Except String String := .ok ""
  saveGenerated : Except String Unit := .ok ()
  saveInitial : Except String Unit := .ok ()
  updateRetry : Except String Unit := .ok ()
  updateMaxed : Except String Unit := .ok ()
  updateComplete : Except String Unit := .ok ()
  updateGenError : Except String Unit := .ok ()
  updateFailure : Except String Unit := .ok ()

/-- Result of one invocation: the returned post id, or the message of
the exception raised to the caller. -/
inductive ProcResult where
  | ok (postId : String)
  | raised (msg : String)
deriving Repr, DecidableEq

/-- The section-extraction step shared by blog_generator.py (lines
95-105) and message_processor.py (lines 168-176): only a JSON decode
failure is treated as "keep the raw text". The comprehension
`[BlogPostSection(**section) for section in content_json['sections']]`
iterates whatever the `sections` value is: a JSON array yields its
items; a string yields its characters and a non-empty object its keys,
where `BlogPostSection(**...)` on a string raises a TypeError; an empty
string or empty object iterates zero times and succeeds with an empty
section list; null, booleans and numbers are not iterable and raise.
None of these exceptions is a `json.JSONDecodeError`, so they escape the
parse guard. -/
def extractSections (raw : String) : Except String (Option (List BlogPostSection)) :=
  match json_loads raw with
  | none => .ok none
  | some j =>
    match j with
    | .obj fields =>
      (match lookupKey fields "sections" with
       | none => .ok none
       | some (.arr items) => (items.mapM sectionFromJson).map some
       | some (.str s) =>
         if s = "" then .ok (some [])
         else .error "TypeError building BlogPostSection from a non-mapping"
       | some (.obj sfields) =>
         (match sfields with
          | [] => .ok (some [])
          | _ :: _ => .error "TypeError building BlogPostSection from a non-mapping")
       | some _ => .error "TypeError iterating sections")
    | _ => .ok none

/-- The fallback title synthesized when the brief has no usable title. -/
def fallbackTitle (postId now : String) : String :=
  "Generated content for " ++ postId ++ " at " ++ now

/-- The effective title used by the generator: the brief's title unless
it is `None` or empty (Python falsy check `not data.get('title')`). -/
def effectiveTitle (postId now : String) (d : BlogPostData) : String :=
  match d.title with
  | some t => if t = "" then fallbackTitle postId now else t
  | none => fallbackTitle postId now

/-- `BlogGenerationOutput` (blog_generator.py). -/
structure BlogGenerationOutput where
  original_post_id : String
  title : String
  original_content : String := ""
  generated_content : String
  generated_at : String
  generated_post_id : String
  status : String
  error : Option String := none
deriving Repr, DecidableEq

/-- The error-variant output built in the `except` handler of
`generate_blog_post`. -/
def genErrorOutput (env : Env) (postId title e : String) : BlogGenerationOutput :=
  { original_post_id := postId, title := title, original_content := "",
    generated_content := "", generated_at := env.now, generated_post_id := "",
    status := "error", error := some e }

/-- The `GeneratedPost` document constructed and saved by
`generate_blog_post` (overwrite semantics: `save_document` replaces any
prior document under the same post id). -/
def mkGeneratedPost (env : Env) (postId title raw : String) (kw : List String)
    (fc : String) (sections : Option (List BlogPostSection)) : GeneratedPost :=
  { id := postId, title := title, original_content := "", keywords := kw,
    focus := fc, generated_content := some raw, sections := sections,
    generated_at := env.now, status := "generated", previous_generation := none }

/-- The success output of `generate_blog_post`. -/
def genSuccessOutput (env : Env) (postId title raw : String) : BlogGenerationOutput :=
  { original_post_id := postId, title := title, original_content := "",
    generated_content := raw, generated_at := env.now,
    generated_post_id := postId, status := "generated", error := none }

/-- Model of `generate_blog_post` (blog_generator.py). Every internal
failure (adapter construction, the provider call, section extraction,
`GeneratedPost` validation, the Firestore save) is captured and returned
as the error variant. The `data` argument stands for the
`model_dump()` of the validated brief, so `data.get('originalContent')`
and `'previousGeneration' in data` in the source never find a key: the
dump uses the field name `original_content` and has no
`previousGeneration` key at all. -/
def generate_blog_post (env : Env) (postId : String) (data : BlogPostData)
    (store : Store) : BlogGenerationOutput × Store × List Event :=
  let title := effectiveTitle postId env.now data
  match env.adapterInit with
  | .error e => (genErrorOutput env postId title e, store, [])
  | .ok _ =>
    match env.providerText with
    | .error e => (genErrorOutput env postId title e, store, [.providerCall])
    | .ok raw =>
      match extractSections raw with
      | .error e => (genErrorOutput env postId title e, store, [.providerCall])
      | .ok sections =>
        match data.keywords, data.focus with
        | some kw, some fc =>
          let gp := mkGeneratedPost env postId title raw kw fc sections
          (match env.saveGenerated with
           | .error e => (genErrorOutput env postId title e, store, [.providerCall])
           | .ok _ =>
             (genSuccessOutput env postId title raw,
              { store with genDoc := some gp },
              [.providerCall, .saveGen postId gp]))
        | _, _ =>
          (genErrorOutput env postId title
            "validation error constructing GeneratedPost", store, [.providerCall])

/-- The retry update (message_processor.py lines 130-134): status back to
processing, incremented retry count, fresh processedAt. -/
def applyRetry (now : String) (rc : Nat) (d : JobDoc) : JobDoc :=
  { d with status := "processing", retry_count := rc, processedAt := now }

/-- The retry-ceiling update (lines 117-122): permanent failure with the
"Exceeded maximum retry attempts (N)" message. -/
def applyMaxed (now : String) (mr rc : Nat) (d : JobDoc) : JobDoc :=
  { d with
    status := "failed_permanently"
    errorAt := some now
    error := some ("Exceeded maximum retry attempts (" ++ toString mr ++ ")")
    retry_count := rc }

/-- The completion update (lines 180-187). The Python payload writes
`sections` only when the parsed list is truthy, so an empty list is
stored as null. -/
def applyCompleted (now gpid raw : String) (sections : Option (List BlogPostSection))
    (d : JobDoc) : JobDoc :=
  { d with
    status := "completed"
    completedAt := some now
    generatedPostId := some gpid
    generatedContent := some raw
    sections := match sections with
      | some (s :: rest) => some (s :: rest)
      | _ => none }

/-- The error update written when the orchestrator returns the error
variant (lines 191-196): status, errorAt and the message only. -/
def applyGenError (now e : String) (d : JobDoc) : JobDoc :=
  { d with status := "error", errorAt := some now, error := some e }

/-- The error payload of the `except` handler below the retry ceiling
(lines 219-224): like `applyGenError` but re-writing the retry count. -/
def applyFailureError (now e : String) (rc : Nat) (d : JobDoc) : JobDoc :=
  { d with
    status := "error"
    errorAt := some now
    error := some e
    retry_count := rc }

/-- The permanent-failure payload of the `except` handler (lines
210-215), with the composite "Permanently failed after N retries" message. -/
def applyFailurePermanent (now e : String) (mr rc : Nat) (d : JobDoc) : JobDoc :=
  { d with
    status := "failed_permanently"
    errorAt := some now
    error := some ("Permanently failed after " ++ toString mr ++
      " retries. Last error: " ++ e)
    retry_count := rc }

/-- Model of the `except` handler of `process_message` (lines 200-237):
re-read the record, pick the error or permanent-failure payload by
comparing the re-read retry count against the ceiling, write it with the
write failure swallowed, then re-raise only below the ceiling. -/
def handleGenerationFailure (env : Env) (postId e : String) (store : Store)
    (trace : List Event) : ProcResult × Store × List Event :=
  let rc := match store.jobDoc with | some d => d.retry_count | none => 0
  let mr := match store.jobDoc with | some d => d.max_retries | none => 3
  let written : Store × List Event :=
    match store.jobDoc, env.updateFailure with
    | some d, .ok _ =>
      let d1 := if rc ≥ mr then applyFailurePermanent env.now e mr rc d
                else applyFailureError env.now e rc d
      ({ store with jobDoc := some d1 }, trace ++ [.updateJob postId d1])
    | _, _ => (store, trace)
  if rc < mr then (.raised e, written.1, written.2)
  else (.ok postId, written.1, written.2)

/-- Model of the generation phase of `process_message` (lines 157-237):
run the orchestrator, redo the section parse on its output (only a JSON
decode failure is caught), then either write the completion update or
write the error update and raise into the `except` handler. -/
def runGeneration (env : Env) (msg : BlogPostMessage) (store : Store)
    (trace : List Event) : ProcResult × Store × List Event :=
  match generate_blog_post env msg.post_id msg.data store with
  | (result, store1, genTr) =>
    match extractSections result.generated_content with
    | .error e => handleGenerationFailure env msg.post_id e store1 (trace ++ genTr)
    | .ok sections =>
      if result.status = "generated" then
        match env.updateComplete with
        | .error e => handleGenerationFailure env msg.post_id e store1 (trace ++ genTr)
        | .ok _ =>
          match store1.jobDoc with
          | none => handleGenerationFailure env msg.post_id
              "update failed: no document to update" store1 (trace ++ genTr)
          | some d =>
            (.ok msg.post_id,
             { store1 with jobDoc := some (applyCompleted env.now result.generated_post_id result.generated_content sections d) },
             trace ++ genTr ++
               [.updateJob msg.post_id (applyCompleted env.now result.generated_post_id result.generated_content sections d)])
      else
        match env.updateGenError with
        | .error e => handleGenerationFailure env msg.post_id e store1 (trace ++ genTr)
        | .ok _ =>
          match store1.jobDoc with
          | none => handleGenerationFailure env msg.post_id
              "update failed: no document to update" store1 (trace ++ genTr)
          | some d =>
            handleGenerationFailure env msg.post_id
              (match result.error with
               | some m => m
               | none => "Unknown error during generation")
              { store1 with jobDoc := some (applyGenError env.now
                  (match result.error with
                   | some m => m
                   | none => "Unknown error during generation") d) }
              (trace ++ genTr ++
               [.updateJob msg.post_id (applyGenError env.now
                  (match result.error with
                   | some m => m
                   | none => "Unknown error during generation") d)])

/-- The initial job record created when no record exists (lines
137-146): status processing, retry count 0, ceiling 3. -/
def initialJobDoc (now : String) (msg : BlogPostMessage) : JobDoc :=
  { id := msg.post_id, action := msg.action, timestamp := msg.timestamp,
    status := "processing", blogPost := msg.data, processedAt := now,
    completedAt := none, errorAt := none, generatedContent := none,
    sections := none, error := none, retry_count := 0, max_retries := 3,
    generatedPostId := none }

/-- Model of `process_message` after message validation and the
regeneration merge: the record lookup and the four lifecycle branches
(lines 99-155), then the generation phase. -/
def processRecord (env : Env) (msg : BlogPostMessage) (store0 : Store) :
    ProcResult × Store × List Event :=
  let postId := msg.post_id
  match store0.jobDoc with
  | some existing =>
    let rc := existing.retry_count
    let mr := existing.max_retries
    if existing.status = "failed_permanently" then (.ok postId, store0, [])
    else if rc ≥ mr then
      match env.updateMaxed with
      | .error e => (.raised e, store0, [])
      | .ok _ =>
        let d1 := applyMaxed env.now mr rc existing
        (.ok postId, { store0 with jobDoc := some d1 }, [.updateJob postId d1])
    else
      match env.updateRetry with
      | .error e => (.raised e, store0, [])
      | .ok _ =>
        let d1 := applyRetry env.now (rc + 1) existing
        runGeneration env msg { store0 with jobDoc := some d1 }
          [.updateJob postId d1]
  | none =>
    if validAction msg.action then
      let job := initialJobDoc env.now msg
      match env.saveInitial with
      | .error e => (.raised e, store0, [])
      | .ok _ =>
        runGeneration env msg { store0 with jobDoc := some job }
          [.saveJob postId job]
    else
      (.raised "validation error constructing ProcessedBlogPost", store0, [])

/-- Model of `process_message` (message_processor.py): validate the
decoded payload, perform the regeneration lookup and merge (which in the
source precedes any job-record handling), then run the lifecycle. -/
def process_message (env : Env) (payload : PyJson) (store0 : Store) :
    ProcResult × Store × List Event :=
  match validateBlogPostMessage payload with
  | .error e => (.raised ("validation error: " ++ e), store0, [])
  | .ok msg =>
    if msg.action = "regenerate" then
      match env.sourcePost with
      | some op =>
        processRecord env { msg with data := mergeOriginal op msg.data } store0
      | none =>
        (.raised ("Original post not found for regeneration: " ++ msg.post_id),
         store0, [])
    else processRecord env msg store0

/-! ### Reduction lemmas -/

/-- A validation failure short-circuits the whole invocation. -/
theorem process_message_invalid (env : Env) (payload : PyJson) (store0 : Store)
    (e : String) (hv : validateBlogPostMessage payload = .error e) :
    process_message env payload store0 =
      (.raised ("validation error: " ++ e), store0, []) := by
  unfold process_message
  rw [hv]

/-- A valid non-regenerate message goes straight to the record logic. -/
theorem process_message_valid (env : Env) (payload : PyJson) (store0 : Store)
    (msg : BlogPostMessage) (hv : validateBlogPostMessage payload = .ok msg)
    (hr : msg.action ≠ "regenerate") :
    process_message env payload store0 = processRecord env msg store0 := by
  unfold process_message
  rw [hv]
  simp [hr]

/-- A regenerate message with the original present merges, then runs the
record logic. -/
theorem process_message_regen (env : Env) (payload : PyJson) (store0 : Store)
    (msg : BlogPostMessage) (op : OriginalPost)
    (hv : validateBlogPostMessage payload = .ok msg)
    (ha : msg.action = "regenerate") (hsp : env.sourcePost = some op) :
    process_message env payload store0 =
      processRecord env { msg with data := mergeOriginal op msg.data } store0 := by
  unfold process_message
  rw [hv]
  simp [ha, hsp]

/-- A regenerate message with the original absent raises before any
record handling. -/
theorem process_message_regen_missing (env : Env) (payload : PyJson)
    (store0 : Store) (msg : BlogPostMessage)
    (hv : validateBlogPostMessage payload = .ok msg)
    (ha : msg.action = "regenerate") (hsp : env.sourcePost = none) :
    process_message env payload store0 =
      (.raised ("Original post not found for regeneration: " ++ msg.post_id),
       store0, []) := by
  unfold process_message
  rw [hv]
  simp [ha, hsp]

/-- A permanently failed record is terminal: no writes, no provider call. -/
theorem processRecord_terminal (env : Env) (msg : BlogPostMessage)
    (store0 : Store) (d : JobDoc) (hj : store0.jobDoc = some d)
    (hs : d.status = "failed_permanently") :
    processRecord env msg store0 = (.ok msg.post_id, store0, []) := by
  unfold processRecord
  rw [hj]
  simp [hs]

/-- At or above the retry ceiling the record is marked permanently
failed and the invocation succeeds without generation. -/
theorem processRecord_maxed (env : Env) (msg : BlogPostMessage)
    (store0 : Store) (d : JobDoc) (hj : store0.jobDoc = some d)
    (hs : d.status ≠ "failed_permanently")
    (hrc : d.max_retries ≤ d.retry_count) (hum : env.updateMaxed = .ok ()) :
    processRecord env msg store0 =
      (.ok msg.post_id,
       { store0 with jobDoc := some (applyMaxed env.now d.max_retries d.retry_count d) },
       [.updateJob msg.post_id (applyMaxed env.now d.max_retries d.retry_count d)]) := by
  unfold processRecord
  rw [hj, hum]
  simp [hs, hrc]

/-- Below the ceiling the retry counter is incremented, the record is set
back to processing, and the generation phase runs. -/
theorem processRecord_retry (env : Env) (msg : BlogPostMessage)
    (store0 : Store) (d : JobDoc) (hj : store0.jobDoc = some d)
    (hs : d.status ≠ "failed_permanently")
    (hrc : d.retry_count < d.max_retries) (hur : env.updateRetry = .ok ()) :
    processRecord env msg store0 =
      runGeneration env msg
        { store0 with jobDoc := some (applyRetry env.now (d.retry_count + 1) d) }
        [.updateJob msg.post_id (applyRetry env.now (d.retry_count + 1) d)] := by
  unfold processRecord
  rw [hj, hur]
  simp [hs, Nat.not_le.mpr hrc]

/-- With no existing record and a valid action, the initial record is
saved and the generation phase runs. -/
theorem processRecord_new (env : Env) (msg : BlogPostMessage)
    (store0 : Store) (hj : store0.jobDoc = none)
    (ha : validAction msg.action = true) (hsi : env.saveInitial = .ok ()) :
    processRecord env msg store0 =
      runGeneration env msg { store0 with jobDoc := some (initialJobDoc env.now msg) }
        [.saveJob msg.post_id (initialJobDoc env.now msg)] := by
  unfold processRecord
  rw [hj, hsi]
  simp [ha]

/-- With no existing record, a failing initial save propagates. -/
theorem processRecord_new_saveFail (env : Env) (msg : BlogPostMessage)
    (store0 : Store) (e : String) (hj : store0.jobDoc = none)
    (ha : validAction msg.action = true) (hsi : env.saveInitial = .error e) :
    processRecord env msg store0 = (.raised e, store0, []) := by
  unfold processRecord
  rw [hj, hsi]
  simp [ha]

/-- With no existing record, an action outside the enum fails the
`ProcessedBlogPost` validation before anything is written. -/
theorem processRecord_new_invalidAction (env : Env) (msg : BlogPostMessage)
    (store0 : Store) (hj : store0.jobDoc = none)
    (ha : validAction msg.action = false) :
    processRecord env msg store0 =
      (.raised "validation error constructing ProcessedBlogPost", store0, []) := by
  unfold processRecord
  rw [hj]
  simp [ha]

/-- Orchestrator reduction: the provider call raising is captured and
returned as the error variant. -/
theorem generate_provider_error (env : Env) (postId : String)
    (data : BlogPostData) (store : Store) (m : String)
    (hA : env.adapterInit = .ok ()) (hP : env.providerText = .error m) :
    generate_blog_post env postId data store =
      (genErrorOutput env postId (effectiveTitle postId env.now data) m,
       store, [.providerCall]) := by
  unfold generate_blog_post
  rw [hA, hP]

/-- Orchestrator reduction: adapter construction failure is captured. -/
theorem generate_adapter_error (env : Env) (postId : String)
    (data : BlogPostData) (store : Store) (m : String)
    (hA : env.adapterInit = .error m) :
    generate_blog_post env postId data store =
      (genErrorOutput env postId (effectiveTitle postId env.now data) m,
       store, []) := by
  unfold generate_blog_post
  rw [hA]

/-- Orchestrator reduction: a section-extraction failure (a decoded JSON
object with a malformed `sections` entry) is captured as the error
variant. -/
theorem generate_sections_error (env : Env) (postId : String)
    (data : BlogPostData) (store : Store) (raw m : String)
    (hA : env.adapterInit = .ok ()) (hP : env.providerText = .ok raw)
    (hx : extractSections raw = .error m) :
    generate_blog_post env postId data store =
      (genErrorOutput env postId (effectiveTitle postId env.now data) m,
       store, [.providerCall]) := by
  unfold generate_blog_post
  rw [hA, hP]
  simp [hx]

/-- Orchestrator reduction: the success path saves the generated post
and returns the generated variant. -/
theorem generate_success (env : Env) (postId : String) (data : BlogPostData)
    (store : Store) (raw : String) (secs : Option (List BlogPostSection))
    (kw : List String) (fc : String)
    (hA : env.adapterInit = .ok ()) (hP : env.providerText = .ok raw)
    (hx : extractSections raw = .ok secs) (hk : data.keywords = some kw)
    (hf : data.focus = some fc) (hsg : env.saveGenerated = .ok ()) :
    generate_blog_post env postId data store =
      (genSuccessOutput env postId (effectiveTitle postId env.now data) raw,
       { store with genDoc := some (mkGeneratedPost env postId
           (effectiveTitle postId env.now data) raw kw fc secs) },
       [.providerCall, .saveGen postId (mkGeneratedPost env postId
           (effectiveTitle postId env.now data) raw kw fc secs)]) := by
  unfold generate_blog_post
  rw [hA, hP]
  simp [hx, hk, hf, hsg]

/-- Failure-handler reduction at the ceiling: one permanent-failure
write, then success is returned to absorb redelivery. -/
theorem handleGenerationFailure_atCeiling (env : Env) (postId e : String)
    (store : Store) (trace : List Event) (d : JobDoc)
    (hj : store.jobDoc = some d) (hrc : d.max_retries ≤ d.retry_count)
    (huf : env.updateFailure = .ok ()) :
    handleGenerationFailure env postId e store trace =
      (.ok postId,
       { store with jobDoc := some (applyFailurePermanent env.now e d.max_retries d.retry_count d) },
       trace ++ [.updateJob postId
           (applyFailurePermanent env.now e d.max_retries d.retry_count d)]) := by
  unfold handleGenerationFailure
  rw [hj, huf]
  simp [hrc, Nat.not_lt.mpr hrc]

/-- Failure-handler reduction below the ceiling: one error write, then
the failure is re-raised to trigger redelivery. -/
theorem handleGenerationFailure_below (env : Env) (postId e : String)
    (store : Store) (trace : List Event) (d : JobDoc)
    (hj : store.jobDoc = some d) (hrc : d.retry_count < d.max_retries)
    (huf : env.updateFailure = .ok ()) :
    handleGenerationFailure env postId e store trace =
      (.raised e,
       { store with jobDoc := some (applyFailureError env.now e d.retry_count d) },
       trace ++ [.updateJob postId (applyFailureError env.now e d.retry_count d)]) := by
  unfold handleGenerationFailure
  rw [hj, huf]
  simp [hrc, Nat.not_le.mpr hrc]

/-- The empty string is not valid JSON, so the processor-side section
parse of the error variant's empty content is a caught decode failure. -/
theorem extractSections_empty : extractSections "" = .ok none := by
  rfl

/-- Generation-phase reduction when the orchestrator returns the error
variant with message `m`: the error status is persisted (line 196), then
the raise lands in the `except` handler. -/
theorem runGeneration_orchError (env : Env) (msg : BlogPostMessage)
    (store : Store) (trace : List Event) (m : String) (d : JobDoc)
    (hA : env.adapterInit = .ok ()) (hP : env.providerText = .error m)
    (hge : env.updateGenError = .ok ()) (hj : store.jobDoc = some d) :
    runGeneration env msg store trace =
      handleGenerationFailure env msg.post_id m
        { store with jobDoc := some (applyGenError env.now m d) }
        (trace ++ [.providerCall, .updateJob msg.post_id (applyGenError env.now m d)]) := by
  unfold runGeneration
  simp only [generate_provider_error env msg.post_id msg.data store m hA hP]
  simp [genErrorOutput, extractSections_empty, hge, hj]

/-- Generation-phase reduction on full success: the completion update is
written and the invocation succeeds. -/
theorem runGeneration_success (env : Env) (msg : BlogPostMessage)
    (store : Store) (trace : List Event) (raw : String)
    (secs : Option (List BlogPostSection)) (kw : List String) (fc : String)
    (d : JobDoc)
    (hA : env.adapterInit = .ok ()) (hP : env.providerText = .ok raw)
    (hx : extractSections raw = .ok secs) (hk : msg.data.keywords = some kw)
    (hf : msg.data.focus = some fc) (hsg : env.saveGenerated = .ok ())
    (huc : env.updateComplete = .ok ()) (hj : store.jobDoc = some d) :
    runGeneration env msg store trace =
      (.ok msg.post_id,
       { store with jobDoc := some (applyCompleted env.now msg.post_id raw secs d), genDoc := some (mkGeneratedPost env msg.post_id (effectiveTitle msg.post_id env.now msg.data) raw kw fc secs) },
       trace ++ [.providerCall,
         .saveGen msg.post_id (mkGeneratedPost env msg.post_id
           (effectiveTitle msg.post_id env.now msg.data) raw kw fc secs),
         .updateJob msg.post_id (applyCompleted env.now msg.post_id raw secs d)]) := by
  unfold runGeneration
  simp only [generate_success env msg.post_id msg.data store raw secs kw fc hA hP hx hk hf hsg]
  simp [genSuccessOutput, hx, huc, hj]

/-- Number of job-record creations (`save_document` on the jobs
collection) in a trace. -/
def saveJobCount (tr : List Event) : Nat :=
  (tr.filter (fun ev => ev.isSaveJob)).length

/-- Creation counts add over concatenated traces. -/
theorem saveJobCount_append (a b : List Event) :
    saveJobCount (a ++ b) = saveJobCount a + saveJobCount b := by
  unfold saveJobCount
  simp [List.filter_append]

/-- The orchestrator never creates a job record. -/
theorem generate_saveJobCount (env : Env) (postId : String)
    (data : BlogPostData) (store : Store) :
    saveJobCount (generate_blog_post env postId data store).2.2 = 0 := by
  unfold generate_blog_post
  rcases env.adapterInit with e | u
  · simp [saveJobCount]
  · rcases env.providerText with e | raw
    · simp [saveJobCount, Event.isSaveJob]
    · rcases hx : extractSections raw with e | secs
      · simp [hx, saveJobCount, Event.isSaveJob]
      · rcases hk : data.keywords with _ | kw <;> rcases hf : data.focus with _ | fc <;>
          simp [hx, hk, hf, saveJobCount, Event.isSaveJob]
        rcases env.saveGenerated with e | u <;> simp [saveJobCount, Event.isSaveJob]

/-- The `except` handler never creates a job record. -/
theorem handleGenerationFailure_saveJobCount (env : Env) (postId e : String)
    (store : Store) (trace : List Event) :
    saveJobCount (handleGenerationFailure env postId e store trace).2.2 =
      saveJobCount trace := by
  unfold handleGenerationFailure
  repeat' split
  all_goals simp [apply_ite, saveJobCount_append, saveJobCount, Event.isSaveJob]
  all_goals intro a ha
  all_goals split at ha <;> subst ha <;> rfl

/-- The generation phase never creates a job record. -/
theorem runGeneration_saveJobCount (env : Env) (msg : BlogPostMessage)
    (store : Store) (trace : List Event) :
    saveJobCount (runGeneration env msg store trace).2.2 = saveJobCount trace := by
  unfold runGeneration
  split
  rename_i result store1 genTr heq
  have hg : saveJobCount genTr = 0 := by
    have h0 := generate_saveJobCount env msg.post_id msg.data store
    rw [heq] at h0
    exact h0
  repeat' split
  all_goals simp only [handleGenerationFailure_saveJobCount, saveJobCount_append, hg]
  all_goals simp [saveJobCount, Event.isSaveJob]

/-- The `except` handler only appends to the trace it is given. -/
theorem handleGenerationFailure_trace_prefix (env : Env) (postId e : String)
    (store : Store) (trace : List Event) :
    ∃ tl, (handleGenerationFailure env postId e store trace).2.2 = trace ++ tl := by
  unfold handleGenerationFailure
  repeat' split
  all_goals simp [apply_ite]

/-- The generation phase only appends to the trace it is given. -/
theorem runGeneration_trace_prefix (env : Env) (msg : BlogPostMessage)
    (store : Store) (trace : List Event) :
    ∃ tl, (runGeneration env msg store trace).2.2 = trace ++ tl := by
  unfold runGeneration
  split
  rename_i result store1 genTr heq
  have H : ∀ (e : String) (st : Store) (sfx : List Event),
      ∃ tl, (handleGenerationFailure env msg.post_id e st (trace ++ sfx)).2.2 =
        trace ++ tl := by
    intro e st sfx
    obtain ⟨tl, htl⟩ := handleGenerationFailure_trace_prefix env msg.post_id e st (trace ++ sfx)
    exact ⟨sfx ++ tl, by rw [htl, List.append_assoc]⟩
  repeat' split
  all_goals first
    | exact H _ _ genTr
    | (rw [List.append_assoc]; first | exact H _ _ _ | exact ⟨_, rfl⟩)

/-- Bind on an `Except` failure short-circuits. -/
theorem except_bind_error {α β : Type} (e : String) (f : α → Except String β) :
    (Except.error e : Except String α) >>= f = Except.error e := rfl

/-- Bind on an `Except` success applies the continuation. -/
theorem except_bind_ok {α β : Type} (a : α) (f : α → Except String β) :
    (Except.ok a : Except String α) >>= f = f a := rfl

/-- A data object without an `id` key fails `BlogPostData` validation. -/
theorem validateBlogPostData_missing_id (dfields : List (String × PyJson))
    (hid : lookupKey dfields "id" = none) :
    validateBlogPostData (.obj dfields) = .error "id: field required" := by
  simp [validateBlogPostData, hid, except_bind_error]

/-- A message whose `data` object lacks an `id` key fails
`BlogPostMessage` validation, whatever the other fields hold. -/
theorem validateBlogPostMessage_data_missing_id
    (fields dfields : List (String × PyJson))
    (hdata : lookupKey fields "data" = some (.obj dfields))
    (hid : lookupKey dfields "id" = none) :
    ∃ e, validateBlogPostMessage (.obj fields) = .error e := by
  rcases h1 : lookupAliased fields "postId" "post_id" with _ | v1
  · exact ⟨"postId: field required",
      by simp [validateBlogPostMessage, h1, except_bind_error]⟩
  · rcases v1 with _ | b | n | s1 | items | flds
    case str =>
      rcases h2 : lookupKey fields "action" with _ | v2
      · exact ⟨"action: field required",
          by simp [validateBlogPostMessage, h1, h2, except_bind_error, except_bind_ok]⟩
      · rcases v2 with _ | b | n | s2 | items | flds
        case str =>
          rcases h3 : lookupKey fields "timestamp" with _ | v3
          · exact ⟨"timestamp: field required",
              by simp [validateBlogPostMessage, h1, h2, h3, except_bind_error,
                except_bind_ok]⟩
          · rcases v3 with _ | b | n3 | s3 | items | flds
            case num =>
              exact ⟨"id: field required", by
                simp [validateBlogPostMessage, h1, h2, h3, hdata,
                  validateBlogPostData_missing_id dfields hid, except_bind_error,
                  except_bind_ok]⟩
            all_goals exact ⟨"timestamp: value is not a valid integer",
              by simp [validateBlogPostMessage, h1, h2, h3, except_bind_error,
                except_bind_ok]⟩
        all_goals exact ⟨"action: value is not a valid string",
          by simp [validateBlogPostMessage, h1, h2, except_bind_error, except_bind_ok]⟩
    all_goals exact ⟨"postId: value is not a valid string",
      by simp [validateBlogPostMessage, h1, except_bind_error]⟩

/-- Generation-phase reduction when generation succeeded but the
completion update raises: the generated post is already saved, and the
`except` handler takes over carrying the update's exception message —
without any status=error write having happened. -/
theorem runGeneration_completeFail (env : Env) (msg : BlogPostMessage)
    (store : Store) (trace : List Event) (raw ue : String)
    (secs : Option (List BlogPostSection)) (kw : List String) (fc : String)
    (hA : env.adapterInit = .ok ()) (hP : env.providerText = .ok raw)
    (hx : extractSections raw = .ok secs) (hk : msg.data.keywords = some kw)
    (hf : msg.data.focus = some fc) (hsg : env.saveGenerated = .ok ())
    (huc : env.updateComplete = .error ue) :
    runGeneration env msg store trace =
      handleGenerationFailure env msg.post_id ue
        { store with genDoc := some (mkGeneratedPost env msg.post_id (effectiveTitle msg.post_id env.now msg.data) raw kw fc secs) }
        (trace ++ [.providerCall, .saveGen msg.post_id (mkGeneratedPost env msg.post_id (effectiveTitle msg.post_id env.now msg.data) raw kw fc secs)]) := by
  unfold runGeneration
  simp only [generate_success env msg.post_id msg.data store raw secs kw fc hA hP hx hk hf hsg]
  simp [genSuccessOutput, hx, huc]

/-! ### Claim theorems -/

/-- Claim C7: `generate_blog_post` never raises to its caller: for every
environment — including provider call failures, failures persisting the
generated post, and AI-adapter construction failures — and every input,
the result is tagged either "generated" or "error", the error variant
carrying an error message. -/
theorem c7_generate_never_raises (env : Env) (postId : String)
    (data : BlogPostData) (store : Store) :
    (generate_blog_post env postId data store).1.status = "generated" ∨
    ((generate_blog_post env postId data store).1.status = "error" ∧
     (generate_blog_post env postId data store).1.error ≠ none) := by
  unfold generate_blog_post
  repeat' split
  all_goals simp [genErrorOutput, genSuccessOutput]

/-- Claim C2 (amended): an existing failed_permanently record makes the
invocation a no-op returning success — nothing is written, the provider
is not invoked, nothing is raised — provided that, when
action=regenerate, the original post exists in the source-posts store;
a regenerate whose original is missing raises the lookup failure before
the terminal-status check is reached. -/
theorem c2_failed_permanently_terminal (env : Env) (payload : PyJson)
    (store0 : Store) (msg : BlogPostMessage) (d : JobDoc)
    (hv : validateBlogPostMessage payload = .ok msg)
    (hj : store0.jobDoc = some d) (hs : d.status = "failed_permanently")
    (hreg : msg.action = "regenerate" → env.sourcePost ≠ none) :
    process_message env payload store0 = (.ok msg.post_id, store0, []) := by
  by_cases ha : msg.action = "regenerate"
  · rcases hsp : env.sourcePost with _ | op
    · exact absurd hsp (hreg ha)
    · rw [process_message_regen env payload store0 msg op hv ha hsp]
      exact processRecord_terminal env _ store0 d hj hs
  · rw [process_message_valid env payload store0 msg hv ha]
    exact processRecord_terminal env msg store0 d hj hs

/-- Witness for C2: a concrete created-action invocation against a
permanently failed record is a successful no-op. -/
theorem c2_witness :
    process_message { now := "T1" }
      (.obj [("postId", .str "p1"), ("action", .str "created"),
             ("timestamp", .num 5), ("data", .obj [("id", .str "p1")])])
      { jobDoc := some { id := "p1", action := "created", timestamp := 5, status := "failed_permanently", blogPost := { id := "p1" }, processedAt := "T0", retry_count := 3, max_retries := 3 } } =
      (.ok "p1",
       { jobDoc := some { id := "p1", action := "created", timestamp := 5, status := "failed_permanently", blogPost := { id := "p1" }, processedAt := "T0", retry_count := 3, max_retries := 3 } }, []) :=
  c2_failed_permanently_terminal { now := "T1" }
    (.obj [("postId", .str "p1"), ("action", .str "created"),
           ("timestamp", .num 5), ("data", .obj [("id", .str "p1")])])
    { jobDoc := some { id := "p1", action := "created", timestamp := 5, status := "failed_permanently", blogPost := { id := "p1" }, processedAt := "T0", retry_count := 3, max_retries := 3 } }
    { post_id := "p1", action := "created", timestamp := 5, data := { id := "p1" } }
    { id := "p1", action := "created", timestamp := 5, status := "failed_permanently", blogPost := { id := "p1" }, processedAt := "T0", retry_count := 3, max_retries := 3 }
    rfl rfl rfl (fun h => absurd h (by decide))

/-- Counterexample to C2 as stated: with an existing failed_permanently
record, a regenerate message whose original post is missing raises
instead of returning success, so the claim's "for every action value"
does not hold. -/
theorem c2_counterexample :
    process_message { now := "T1", sourcePost := none }
      (.obj [("postId", .str "p2"), ("action", .str "regenerate"),
             ("timestamp", .num 5), ("data", .obj [("id", .str "p2")])])
      { jobDoc := some { id := "p2", action := "created", timestamp := 5, status := "failed_permanently", blogPost := { id := "p2" }, processedAt := "T0", retry_count := 3, max_retries := 3 } } =
      (.raised "Original post not found for regeneration: p2",
       { jobDoc := some { id := "p2", action := "created", timestamp := 5, status := "failed_permanently", blogPost := { id := "p2" }, processedAt := "T0", retry_count := 3, max_retries := 3 } }, []) := by
  rfl

/-- Claim C3 (amended): an existing record that is not permanently failed
but has exhausted its retries is rewritten to failed_permanently with
errorAt set and the "Exceeded maximum retry attempts (N)" message, the
invocation succeeds, and generation is never attempted — provided that,
when action=regenerate, the original post exists in the source-posts
store (otherwise the lookup failure raises first). -/
theorem c3_retry_ceiling (env : Env) (payload : PyJson) (store0 : Store)
    (msg : BlogPostMessage) (d : JobDoc)
    (hv : validateBlogPostMessage payload = .ok msg)
    (hj : store0.jobDoc = some d) (hs : d.status ≠ "failed_permanently")
    (hrc : d.max_retries ≤ d.retry_count)
    (hreg : msg.action = "regenerate" → env.sourcePost ≠ none)
    (hum : env.updateMaxed = .ok ()) :
    process_message env payload store0 =
      (.ok msg.post_id,
       { store0 with jobDoc := some (applyMaxed env.now d.max_retries d.retry_count d) },
       [.updateJob msg.post_id (applyMaxed env.now d.max_retries d.retry_count d)]) ∧
    (applyMaxed env.now d.max_retries d.retry_count d).status = "failed_permanently" ∧
    (applyMaxed env.now d.max_retries d.retry_count d).error =
      some ("Exceeded maximum retry attempts (" ++ toString d.max_retries ++ ")") ∧
    (applyMaxed env.now d.max_retries d.retry_count d).errorAt = some env.now := by
  refine ⟨?_, rfl, rfl, rfl⟩
  by_cases ha : msg.action = "regenerate"
  · rcases hsp : env.sourcePost with _ | op
    · exact absurd hsp (hreg ha)
    · rw [process_message_regen env payload store0 msg op hv ha hsp]
      exact processRecord_maxed env _ store0 d hj hs hrc hum
  · rw [process_message_valid env payload store0 msg hv ha]
    exact processRecord_maxed env msg store0 d hj hs hrc hum

/-- Witness for C3: a concrete record with retry_count = max_retries = 3
is marked permanently failed and the invocation succeeds. -/
theorem c3_witness :
    process_message { now := "T1" }
      (.obj [("postId", .str "p3"), ("action", .str "updated"),
             ("timestamp", .num 6), ("data", .obj [("id", .str "p3")])])
      { jobDoc := some { id := "p3", action := "updated", timestamp := 6, status := "error", blogPost := { id := "p3" }, processedAt := "T0", retry_count := 3, max_retries := 3 } } =
      (.ok "p3",
       { jobDoc := some { id := "p3", action := "updated", timestamp := 6, status := "failed_permanently", blogPost := { id := "p3" }, processedAt := "T0", errorAt := some "T1", error := some "Exceeded maximum retry attempts (3)", retry_count := 3, max_retries := 3 } },
       [.updateJob "p3" { id := "p3", action := "updated", timestamp := 6, status := "failed_permanently", blogPost := { id := "p3" }, processedAt := "T0", errorAt := some "T1", error := some "Exceeded maximum retry attempts (3)", retry_count := 3, max_retries := 3 }]) :=
  ((c3_retry_ceiling { now := "T1" }
    (.obj [("postId", .str "p3"), ("action", .str "updated"),
           ("timestamp", .num 6), ("data", .obj [("id", .str "p3")])])
    { jobDoc := some { id := "p3", action := "updated", timestamp := 6, status := "error", blogPost := { id := "p3" }, processedAt := "T0", retry_count := 3, max_retries := 3 } }
    { post_id := "p3", action := "updated", timestamp := 6, data := { id := "p3" } }
    { id := "p3", action := "updated", timestamp := 6, status := "error", blogPost := { id := "p3" }, processedAt := "T0", retry_count := 3, max_retries := 3 }
    rfl rfl (by decide) (by decide) (fun h => absurd h (by decide)) rfl).1)

/-- Counterexample to C3 as stated: a record beyond the ceiling is not
transitioned when the message is a regenerate whose original post is
missing — the invocation raises and the record is untouched. -/
theorem c3_counterexample :
    process_message { now := "T1", sourcePost := none }
      (.obj [("postId", .str "p4"), ("action", .str "regenerate"),
             ("timestamp", .num 6), ("data", .obj [("id", .str "p4")])])
      { jobDoc := some { id := "p4", action := "created", timestamp := 6, status := "error", blogPost := { id := "p4" }, processedAt := "T0", retry_count := 3, max_retries := 3 } } =
      (.raised "Original post not found for regeneration: p4",
       { jobDoc := some { id := "p4", action := "created", timestamp := 6, status := "error", blogPost := { id := "p4" }, processedAt := "T0", retry_count := 3, max_retries := 3 } }, []) := by
  rfl

/-- Claim C5 (amended): a valid message with no existing JobRecord leads
to exactly one JobRecord creation, stored under the postId as document
id, with status=processing, retryCount=0, maxRetries=3 and processedAt
set to the current time, and a failing initial persist propagates to the
caller — provided that, when action=regenerate, the original post exists
in the source-posts store; a regenerate whose original is missing raises
before any record is created. -/
theorem c5_initial_record (env : Env) (payload : PyJson) (store0 : Store)
    (msg : BlogPostMessage)
    (hv : validateBlogPostMessage payload = .ok msg)
    (hj : store0.jobDoc = none) (ha : validAction msg.action = true)
    (hreg : msg.action = "regenerate" → env.sourcePost ≠ none) :
    (∀ e, env.saveInitial = .error e →
       process_message env payload store0 = (.raised e, store0, [])) ∧
    (env.saveInitial = .ok () →
       saveJobCount (process_message env payload store0).2.2 = 1 ∧
       ∃ dJob, (process_message env payload store0).2.2.head? =
           some (.saveJob msg.post_id dJob) ∧
         dJob.status = "processing" ∧ dJob.retry_count = 0 ∧
         dJob.max_retries = 3 ∧ dJob.processedAt = env.now) := by
  constructor
  · intro e hsi
    by_cases hra : msg.action = "regenerate"
    · rcases hsp : env.sourcePost with _ | op
      · exact absurd hsp (hreg hra)
      · rw [process_message_regen env payload store0 msg op hv hra hsp]
        exact processRecord_new_saveFail env _ store0 e hj ha hsi
    · rw [process_message_valid env payload store0 msg hv hra]
      exact processRecord_new_saveFail env msg store0 e hj ha hsi
  · intro hsi
    by_cases hra : msg.action = "regenerate"
    · rcases hsp : env.sourcePost with _ | op
      · exact absurd hsp (hreg hra)
      · rw [process_message_regen env payload store0 msg op hv hra hsp]
        rw [processRecord_new env { msg with data := mergeOriginal op msg.data }
          store0 hj ha hsi]
        constructor
        · rw [runGeneration_saveJobCount]
          rfl
        · obtain ⟨tl, htl⟩ := runGeneration_trace_prefix env
            { msg with data := mergeOriginal op msg.data }
            { store0 with jobDoc := some (initialJobDoc env.now
                { msg with data := mergeOriginal op msg.data }) }
            [.saveJob msg.post_id (initialJobDoc env.now
                { msg with data := mergeOriginal op msg.data })]
          refine ⟨initialJobDoc env.now { msg with data := mergeOriginal op msg.data },
            ?_, rfl, rfl, rfl, rfl⟩
          rw [htl]
          rfl
    · rw [process_message_valid env payload store0 msg hv hra]
      rw [processRecord_new env msg store0 hj ha hsi]
      constructor
      · rw [runGeneration_saveJobCount]
        rfl
      · obtain ⟨tl, htl⟩ := runGeneration_trace_prefix env msg
          { store0 with jobDoc := some (initialJobDoc env.now msg) }
          [.saveJob msg.post_id (initialJobDoc env.now msg)]
        refine ⟨initialJobDoc env.now msg, ?_, rfl, rfl, rfl, rfl⟩
        rw [htl]
        rfl

/-- Witness for C5: a concrete created-action invocation against an
empty store creates exactly one processing record with retry_count 0 and
max_retries 3. -/
theorem c5_witness :
    saveJobCount (process_message { now := "T1" }
      (.obj [("postId", .str "p5"), ("action", .str "created"),
             ("timestamp", .num 7), ("data", .obj [("id", .str "p5")])])
      { jobDoc := none, genDoc := none }).2.2 = 1 ∧
    ∃ dJob, (process_message { now := "T1" }
      (.obj [("postId", .str "p5"), ("action", .str "created"),
             ("timestamp", .num 7), ("data", .obj [("id", .str "p5")])])
      { jobDoc := none, genDoc := none }).2.2.head? =
        some (.saveJob "p5" dJob) ∧
      dJob.status = "processing" ∧ dJob.retry_count = 0 ∧
      dJob.max_retries = 3 ∧ dJob.processedAt = "T1" :=
  (c5_initial_record { now := "T1" }
    (.obj [("postId", .str "p5"), ("action", .str "created"),
           ("timestamp", .num 7), ("data", .obj [("id", .str "p5")])])
    { jobDoc := none, genDoc := none }
    { post_id := "p5", action := "created", timestamp := 7, data := { id := "p5" } }
    rfl rfl rfl (fun h => absurd h (by decide))).2 rfl

/-- Counterexample to C5 as stated: a valid regenerate message with no
existing JobRecord and no original post raises without creating any
record, so "exactly one JobRecord is created" fails for that valid
message. -/
theorem c5_counterexample :
    process_message { now := "T1", sourcePost := none }
      (.obj [("postId", .str "p6"), ("action", .str "regenerate"),
             ("timestamp", .num 7), ("data", .obj [("id", .str "p6")])])
      { jobDoc := none, genDoc := none } =
      (.raised "Original post not found for regeneration: p6",
       { jobDoc := none, genDoc := none }, []) := by
  rfl

/-- The brief stored in the first job-record creation of a run, if any. -/
def firstSavedBrief (r : ProcResult × Store × List Event) : Option BlogPostData :=
  match r.2.2.head? with
  | some (.saveJob _ d) => some d.blogPost
  | _ => none

/-- Claim C4 (amended): for a regenerate whose original post exists, the
Brief used for generation takes title/content/keywords/focus from the
original post whenever the original post has the field — overwriting any
incoming value — and keeps the incoming field only where the original
lacks it; fields outside the merge such as feedback are preserved.
The merged brief is the one stored in the created job record. -/
theorem c4_regeneration_merge (env : Env) (payload : PyJson) (store0 : Store)
    (msg : BlogPostMessage) (op : OriginalPost)
    (hv : validateBlogPostMessage payload = .ok msg)
    (ha : msg.action = "regenerate") (hsp : env.sourcePost = some op)
    (hj : store0.jobDoc = none) (hsi : env.saveInitial = .ok ()) :
    firstSavedBrief (process_message env payload store0) =
      some (mergeOriginal op msg.data) ∧
    (mergeOriginal op msg.data).title =
      (match op.title with | some v => some v | none => msg.data.title) ∧
    (mergeOriginal op msg.data).content =
      (match op.content with | some v => some v | none => msg.data.content) ∧
    (mergeOriginal op msg.data).keywords =
      (match op.keywords with | some v => some v | none => msg.data.keywords) ∧
    (mergeOriginal op msg.data).focus =
      (match op.focus with | some v => some v | none => msg.data.focus) ∧
    (mergeOriginal op msg.data).feedback = msg.data.feedback ∧
    (mergeOriginal op msg.data).regeneration_instructions =
      msg.data.regeneration_instructions ∧
    (mergeOriginal op msg.data).id = msg.data.id := by
  refine ⟨?_, rfl, rfl, rfl, rfl, rfl, rfl, rfl⟩
  rw [process_message_regen env payload store0 msg op hv ha hsp]
  have hva : validAction msg.action = true := by
    rw [ha]
    rfl
  rw [processRecord_new env { msg with data := mergeOriginal op msg.data }
    store0 hj hva hsi]
  obtain ⟨tl, htl⟩ := runGeneration_trace_prefix env
    { msg with data := mergeOriginal op msg.data }
    { store0 with jobDoc := some (initialJobDoc env.now
        { msg with data := mergeOriginal op msg.data }) }
    [.saveJob msg.post_id (initialJobDoc env.now
        { msg with data := mergeOriginal op msg.data })]
  unfold firstSavedBrief
  rw [htl]
  rfl

/-- Witness for C4: the spec scenario — an incoming brief with only
feedback set merged against an original with title "T" and content "C"
stores a brief with title "T", content "C" and the feedback preserved. -/
theorem c4_witness :
    firstSavedBrief (process_message
      { now := "T1", sourcePost := some { title := some "T", content := some "C" } }
      (.obj [("postId", .str "p7"), ("action", .str "regenerate"),
             ("timestamp", .num 8),
             ("data", .obj [("id", .str "p7"), ("feedback", .str "fb")])])
      { jobDoc := none, genDoc := none }) =
      some { id := "p7", title := some "T", content := some "C", keywords := some [], focus := some "", feedback := some "fb" } :=
  (c4_regeneration_merge
    { now := "T1", sourcePost := some { title := some "T", content := some "C" } }
    (.obj [("postId", .str "p7"), ("action", .str "regenerate"),
           ("timestamp", .num 8),
           ("data", .obj [("id", .str "p7"), ("feedback", .str "fb")])])
    { jobDoc := none, genDoc := none }
    { post_id := "p7", action := "regenerate", timestamp := 8, data := { id := "p7", feedback := some "fb" } }
    { title := some "T", content := some "C" }
    rfl rfl rfl rfl rfl).1

/-- Counterexample to C4 as stated: an incoming brief that supplies its
own title "X" does not keep it — the original post's title "T"
overwrites it in the merged brief, although the claim says present
incoming fields are kept unchanged. -/
theorem c4_counterexample :
    validateBlogPostMessage
      (.obj [("postId", .str "p8"), ("action", .str "regenerate"),
             ("timestamp", .num 8),
             ("data", .obj [("id", .str "p8"), ("title", .str "X")])]) =
      .ok { post_id := "p8", action := "regenerate", timestamp := 8, data := { id := "p8", title := some "X" } } ∧
    firstSavedBrief (process_message
      { now := "T1", sourcePost := some { title := some "T", content := some "C" } }
      (.obj [("postId", .str "p8"), ("action", .str "regenerate"),
             ("timestamp", .num 8),
             ("data", .obj [("id", .str "p8"), ("title", .str "X")])])
      { jobDoc := none, genDoc := none }) =
      some { id := "p8", title := some "T", content := some "C", keywords := some [], focus := some "" } := by
  exact ⟨rfl, rfl⟩

/-- Claim C9 (amended): a message with missing or mistyped required
fields fails validation and the error propagates; an action value
outside the four-value enum is rejected only when no JobRecord exists
(the enum is enforced by the record schema at creation time) — when a
JobRecord exists, an out-of-enum action is accepted and processing
proceeds with the retry update. -/
theorem c9_message_validation (env : Env) (payload : PyJson) (store0 : Store) :
    (∀ e, validateBlogPostMessage payload = .error e →
       process_message env payload store0 =
         (.raised ("validation error: " ++ e), store0, [])) ∧
    (∀ msg, validateBlogPostMessage payload = .ok msg →
       validAction msg.action = false → store0.jobDoc = none →
       process_message env payload store0 =
         (.raised "validation error constructing ProcessedBlogPost", store0, [])) ∧
    (∀ msg d, validateBlogPostMessage payload = .ok msg →
       validAction msg.action = false → store0.jobDoc = some d →
       d.status ≠ "failed_permanently" → d.retry_count < d.max_retries →
       env.updateRetry = .ok () →
       (process_message env payload store0).2.2.head? =
         some (.updateJob msg.post_id (applyRetry env.now (d.retry_count + 1) d))) := by
  refine ⟨?_, ?_, ?_⟩
  · intro e he
    exact process_message_invalid env payload store0 e he
  · intro msg hv hva hj
    have hra : msg.action ≠ "regenerate" := by
      intro h
      rw [h] at hva
      exact absurd hva (by decide)
    rw [process_message_valid env payload store0 msg hv hra]
    exact processRecord_new_invalidAction env msg store0 hj hva
  · intro msg d hv hva hj hs hrc hur
    have hra : msg.action ≠ "regenerate" := by
      intro h
      rw [h] at hva
      exact absurd hva (by decide)
    rw [process_message_valid env payload store0 msg hv hra]
    rw [processRecord_retry env msg store0 d hj hs hrc hur]
    obtain ⟨tl, htl⟩ := runGeneration_trace_prefix env msg
      { store0 with jobDoc := some (applyRetry env.now (d.retry_count + 1) d) }
      [.updateJob msg.post_id (applyRetry env.now (d.retry_count + 1) d)]
    rw [htl]
    rfl

/-- Witness for C9: an out-of-enum action ("bogus") against an existing
record is accepted — the first observable effect is the retry update,
not a validation failure. -/
theorem c9_witness :
    (process_message { now := "T1" }
      (.obj [("postId", .str "p9"), ("action", .str "bogus"),
             ("timestamp", .num 9), ("data", .obj [("id", .str "p9")])])
      { jobDoc := some { id := "p9", action := "created", timestamp := 9, status := "processing", blogPost := { id := "p9" }, processedAt := "T0", retry_count := 0, max_retries := 3 }, genDoc := none }).2.2.head? =
      some (.updateJob "p9" (applyRetry "T1" 1
        { id := "p9", action := "created", timestamp := 9, status := "processing", blogPost := { id := "p9" }, processedAt := "T0", retry_count := 0, max_retries := 3 })) :=
  (c9_message_validation { now := "T1" }
    (.obj [("postId", .str "p9"), ("action", .str "bogus"),
           ("timestamp", .num 9), ("data", .obj [("id", .str "p9")])])
    { jobDoc := some { id := "p9", action := "created", timestamp := 9, status := "processing", blogPost := { id := "p9" }, processedAt := "T0", retry_count := 0, max_retries := 3 }, genDoc := none }).2.2
    { post_id := "p9", action := "bogus", timestamp := 9, data := { id := "p9" } }
    { id := "p9", action := "created", timestamp := 9, status := "processing", blogPost := { id := "p9" }, processedAt := "T0", retry_count := 0, max_retries := 3 }
    rfl rfl rfl (by decide) (by decide) rfl

/-- Counterexample to C9 as stated: a message whose action is outside
the enum is not rejected when a JobRecord exists — the invocation calls
the provider, completes the job and returns success. -/
theorem c9_counterexample :
    (process_message { now := "T1", providerText := .ok "hello" }
      (.obj [("postId", .str "q1"), ("action", .str "bogus"),
             ("timestamp", .num 9), ("data", .obj [("id", .str "q1")])])
      { jobDoc := some { id := "q1", action := "created", timestamp := 9, status := "processing", blogPost := { id := "q1" }, processedAt := "T0", retry_count := 0, max_retries := 3 }, genDoc := none }).1 = .ok "q1" ∧
    ((process_message { now := "T1", providerText := .ok "hello" }
      (.obj [("postId", .str "q1"), ("action", .str "bogus"),
             ("timestamp", .num 9), ("data", .obj [("id", .str "q1")])])
      { jobDoc := some { id := "q1", action := "created", timestamp := 9, status := "processing", blogPost := { id := "q1" }, processedAt := "T0", retry_count := 0, max_retries := 3 }, genDoc := none }).2.2.any
        (fun ev => ev.isProviderCall)) = true ∧
    ((process_message { now := "T1", providerText := .ok "hello" }
      (.obj [("postId", .str "q1"), ("action", .str "bogus"),
             ("timestamp", .num 9), ("data", .obj [("id", .str "q1")])])
      { jobDoc := some { id := "q1", action := "created", timestamp := 9, status := "processing", blogPost := { id := "q1" }, processedAt := "T0", retry_count := 0, max_retries := 3 }, genDoc := none }).2.1.jobDoc.map JobDoc.status) = some "completed" := by
  exact ⟨rfl, rfl, rfl⟩

/-- Claim C10: the nested data object must itself contain a string field
id (separate from the top-level postId): a message whose data lacks id
is rejected during validation and the error propagates to the caller,
whatever the other fields hold. -/
theorem c10_data_id_required (env : Env) (store0 : Store)
    (fields dfields : List (String × PyJson))
    (hdata : lookupKey fields "data" = some (.obj dfields))
    (hid : lookupKey dfields "id" = none) :
    ∃ e, validateBlogPostMessage (.obj fields) = .error e ∧
      process_message env (.obj fields) store0 =
        (.raised ("validation error: " ++ e), store0, []) := by
  obtain ⟨e, he⟩ := validateBlogPostMessage_data_missing_id fields dfields hdata hid
  exact ⟨e, he, process_message_invalid env _ store0 e he⟩

/-- Witness for C10: a message with well-typed postId, action, timestamp
and a data object carrying title/content/keywords/focus but no id is
rejected and the error propagates. -/
theorem c10_witness :
    ∃ e, validateBlogPostMessage
        (.obj [("postId", .str "q2"), ("action", .str "created"),
               ("timestamp", .num 3),
               ("data", .obj [("title", .str "Hello"), ("content", .str "C"),
                              ("keywords", .arr [.str "a"]), ("focus", .str "f")])]) =
        .error e ∧
      process_message { now := "T1" }
        (.obj [("postId", .str "q2"), ("action", .str "created"),
               ("timestamp", .num 3),
               ("data", .obj [("title", .str "Hello"), ("content", .str "C"),
                              ("keywords", .arr [.str "a"]), ("focus", .str "f")])])
        { jobDoc := none, genDoc := none } =
        (.raised ("validation error: " ++ e), { jobDoc := none, genDoc := none }, []) :=
  c10_data_id_required { now := "T1" } { jobDoc := none, genDoc := none }
    [("postId", .str "q2"), ("action", .str "created"), ("timestamp", .num 3),
     ("data", .obj [("title", .str "Hello"), ("content", .str "C"),
                    ("keywords", .arr [.str "a"]), ("focus", .str "f")])]
    [("title", .str "Hello"), ("content", .str "C"),
     ("keywords", .arr [.str "a"]), ("focus", .str "f")]
    rfl rfl

/-- Claim C6 (amended): replaying a message against a completed record
below the retry ceiling still increments retryCount by exactly one, sets
the record back to processing, re-attempts generation, and on success
the newly persisted GeneratedPostRecord fully replaces whatever was
stored for the postId (completed is not absorbing) — provided that, when
action=regenerate, the original post exists in the source-posts store
(a regenerate whose original is missing raises without touching the
record; this statement covers the non-regenerate replay). -/
theorem c6_completed_replay (env : Env) (payload : PyJson) (store0 : Store)
    (msg : BlogPostMessage) (d : JobDoc) (raw : String)
    (secs : Option (List BlogPostSection)) (kw : List String) (fc : String)
    (hv : validateBlogPostMessage payload = .ok msg)
    (hr : msg.action ≠ "regenerate")
    (hj : store0.jobDoc = some d) (hst : d.status = "completed")
    (hrc : d.retry_count < d.max_retries)
    (hur : env.updateRetry = .ok ()) (hA : env.adapterInit = .ok ())
    (hP : env.providerText = .ok raw) (hx : extractSections raw = .ok secs)
    (hk : msg.data.keywords = some kw) (hf : msg.data.focus = some fc)
    (hsg : env.saveGenerated = .ok ()) (huc : env.updateComplete = .ok ()) :
    process_message env payload store0 =
      (.ok msg.post_id,
       { jobDoc := some (applyCompleted env.now msg.post_id raw secs (applyRetry env.now (d.retry_count + 1) d)), genDoc := some (mkGeneratedPost env msg.post_id (effectiveTitle msg.post_id env.now msg.data) raw kw fc secs) },
       [.updateJob msg.post_id (applyRetry env.now (d.retry_count + 1) d),
        .providerCall,
        .saveGen msg.post_id (mkGeneratedPost env msg.post_id (effectiveTitle msg.post_id env.now msg.data) raw kw fc secs),
        .updateJob msg.post_id (applyCompleted env.now msg.post_id raw secs (applyRetry env.now (d.retry_count + 1) d))]) ∧
    (applyRetry env.now (d.retry_count + 1) d).status = "processing" ∧
    (applyRetry env.now (d.retry_count + 1) d).retry_count = d.retry_count + 1 ∧
    (applyCompleted env.now msg.post_id raw secs (applyRetry env.now (d.retry_count + 1) d)).status = "completed" ∧
    (applyCompleted env.now msg.post_id raw secs (applyRetry env.now (d.retry_count + 1) d)).retry_count = d.retry_count + 1 ∧
    (mkGeneratedPost env msg.post_id (effectiveTitle msg.post_id env.now msg.data) raw kw fc secs).generated_content = some raw := by
  refine ⟨?_, rfl, rfl, rfl, rfl, rfl⟩
  rw [process_message_valid env payload store0 msg hv hr]
  rw [processRecord_retry env msg store0 d hj (by simp [hst]) hrc hur]
  rw [runGeneration_success env msg
    { store0 with jobDoc := some (applyRetry env.now (d.retry_count + 1) d) }
    [.updateJob msg.post_id (applyRetry env.now (d.retry_count + 1) d)]
    raw secs kw fc (applyRetry env.now (d.retry_count + 1) d)
    hA hP hx hk hf hsg huc rfl]
  rfl

/-- Witness for C6: replaying against a concrete completed record with
retry_count 1 increments it to 2, regenerates, and the stored generated
post is replaced by the new one. -/
theorem c6_witness :
    process_message { now := "T1", providerText := .ok "new text" }
      (.obj [("postId", .str "q3"), ("action", .str "updated"),
             ("timestamp", .num 4), ("data", .obj [("id", .str "q3")])])
      { jobDoc := some { id := "q3", action := "updated", timestamp := 4, status := "completed", blogPost := { id := "q3" }, processedAt := "T0", retry_count := 1, max_retries := 3 },
        genDoc := some { id := "q3", title := "old", generated_content := some "old text", generated_at := "T0" } } =
      (.ok "q3",
       { jobDoc := some (applyCompleted "T1" "q3" "new text" none (applyRetry "T1" 2 { id := "q3", action := "updated", timestamp := 4, status := "completed", blogPost := { id := "q3" }, processedAt := "T0", retry_count := 1, max_retries := 3 })),
         genDoc := some (mkGeneratedPost { now := "T1", providerText := .ok "new text" } "q3" (effectiveTitle "q3" "T1" { id := "q3" }) "new text" [] "" none) },
       [.updateJob "q3" (applyRetry "T1" 2 { id := "q3", action := "updated", timestamp := 4, status := "completed", blogPost := { id := "q3" }, processedAt := "T0", retry_count := 1, max_retries := 3 }),
        .providerCall,
        .saveGen "q3" (mkGeneratedPost { now := "T1", providerText := .ok "new text" } "q3" (effectiveTitle "q3" "T1" { id := "q3" }) "new text" [] "" none),
        .updateJob "q3" (applyCompleted "T1" "q3" "new text" none (applyRetry "T1" 2 { id := "q3", action := "updated", timestamp := 4, status := "completed", blogPost := { id := "q3" }, processedAt := "T0", retry_count := 1, max_retries := 3 }))]) :=
  (c6_completed_replay { now := "T1", providerText := .ok "new text" }
    (.obj [("postId", .str "q3"), ("action", .str "updated"),
           ("timestamp", .num 4), ("data", .obj [("id", .str "q3")])])
    { jobDoc := some { id := "q3", action := "updated", timestamp := 4, status := "completed", blogPost := { id := "q3" }, processedAt := "T0", retry_count := 1, max_retries := 3 },
      genDoc := some { id := "q3", title := "old", generated_content := some "old text", generated_at := "T0" } }
    { post_id := "q3", action := "updated", timestamp := 4, data := { id := "q3" } }
    { id := "q3", action := "updated", timestamp := 4, status := "completed", blogPost := { id := "q3" }, processedAt := "T0", retry_count := 1, max_retries := 3 }
    "new text" none [] ""
    rfl (by decide) rfl rfl (by decide) rfl rfl rfl rfl rfl rfl rfl rfl).1

/-- Counterexample to C6 as stated: a replay with action=regenerate whose
original post is missing raises without incrementing retryCount or
re-attempting generation, although the record is completed and below the
ceiling. -/
theorem c6_counterexample :
    process_message { now := "T1", sourcePost := none }
      (.obj [("postId", .str "q4"), ("action", .str "regenerate"),
             ("timestamp", .num 4), ("data", .obj [("id", .str "q4")])])
      { jobDoc := some { id := "q4", action := "created", timestamp := 4, status := "completed", blogPost := { id := "q4" }, processedAt := "T0", retry_count := 1, max_retries := 3 }, genDoc := none } =
      (.raised "Original post not found for regeneration: q4",
       { jobDoc := some { id := "q4", action := "created", timestamp := 4, status := "completed", blogPost := { id := "q4" }, processedAt := "T0", retry_count := 1, max_retries := 3 }, genDoc := none }, []) := by
  rfl

/-- Claim C1 (amended): when the orchestrator returns the error variant,
the handler persists status=error with errorAt and the error message,
re-reads retryCount and maxRetries, and then either overwrites the
record to failed_permanently with the composite "Permanently failed
after N retries. Last error: ..." message and returns success (when
retryCount ≥ maxRetries), or records the error and re-raises (when
retryCount < maxRetries). When instead the final persist raises, the
handler skips straight to the re-read and writes only the single final
payload: at the ceiling the record goes directly to failed_permanently
and no status=error write happens at all. -/
theorem c1_generation_failure_path (env : Env) (payload : PyJson)
    (store0 : Store) (msg : BlogPostMessage) (d : JobDoc)
    (hv : validateBlogPostMessage payload = .ok msg)
    (hr : msg.action ≠ "regenerate")
    (hj : store0.jobDoc = some d) (hs : d.status ≠ "failed_permanently")
    (hrc : d.retry_count < d.max_retries)
    (hur : env.updateRetry = .ok ()) (huf : env.updateFailure = .ok ())
    (hA : env.adapterInit = .ok ()) :
    (∀ m, env.providerText = .error m → env.updateGenError = .ok () →
       (d.retry_count + 1 < d.max_retries →
          process_message env payload store0 =
            (.raised m,
             { jobDoc := some (applyFailureError env.now m (d.retry_count + 1) (applyGenError env.now m (applyRetry env.now (d.retry_count + 1) d))), genDoc := store0.genDoc },
             [.updateJob msg.post_id (applyRetry env.now (d.retry_count + 1) d),
              .providerCall,
              .updateJob msg.post_id (applyGenError env.now m (applyRetry env.now (d.retry_count + 1) d)),
              .updateJob msg.post_id (applyFailureError env.now m (d.retry_count + 1) (applyGenError env.now m (applyRetry env.now (d.retry_count + 1) d)))])) ∧
       (d.max_retries ≤ d.retry_count + 1 →
          process_message env payload store0 =
            (.ok msg.post_id,
             { jobDoc := some (applyFailurePermanent env.now m d.max_retries (d.retry_count + 1) (applyGenError env.now m (applyRetry env.now (d.retry_count + 1) d))), genDoc := store0.genDoc },
             [.updateJob msg.post_id (applyRetry env.now (d.retry_count + 1) d),
              .providerCall,
              .updateJob msg.post_id (applyGenError env.now m (applyRetry env.now (d.retry_count + 1) d)),
              .updateJob msg.post_id (applyFailurePermanent env.now m d.max_retries (d.retry_count + 1) (applyGenError env.now m (applyRetry env.now (d.retry_count + 1) d)))])) ∧
       (applyGenError env.now m (applyRetry env.now (d.retry_count + 1) d)).status = "error" ∧
       (applyGenError env.now m (applyRetry env.now (d.retry_count + 1) d)).error = some m ∧
       (applyGenError env.now m (applyRetry env.now (d.retry_count + 1) d)).errorAt = some env.now ∧
       (applyFailurePermanent env.now m d.max_retries (d.retry_count + 1) (applyGenError env.now m (applyRetry env.now (d.retry_count + 1) d))).error =
         some ("Permanently failed after " ++ toString d.max_retries ++ " retries. Last error: " ++ m)) ∧
    (∀ raw ue secs kw fc, env.providerText = .ok raw →
       extractSections raw = .ok secs → msg.data.keywords = some kw →
       msg.data.focus = some fc → env.saveGenerated = .ok () →
       env.updateComplete = .error ue → d.max_retries ≤ d.retry_count + 1 →
       process_message env payload store0 =
         (.ok msg.post_id,
          { jobDoc := some (applyFailurePermanent env.now ue d.max_retries (d.retry_count + 1) (applyRetry env.now (d.retry_count + 1) d)), genDoc := some (mkGeneratedPost env msg.post_id (effectiveTitle msg.post_id env.now msg.data) raw kw fc secs) },
          [.updateJob msg.post_id (applyRetry env.now (d.retry_count + 1) d),
           .providerCall,
           .saveGen msg.post_id (mkGeneratedPost env msg.post_id (effectiveTitle msg.post_id env.now msg.data) raw kw fc secs),
           .updateJob msg.post_id (applyFailurePermanent env.now ue d.max_retries (d.retry_count + 1) (applyRetry env.now (d.retry_count + 1) d))]) ∧
       (process_message env payload store0).2.2.filter
         (fun ev => ev.jobStatus = some "error") = []) := by
  have hred : process_message env payload store0 =
      runGeneration env msg
        { store0 with jobDoc := some (applyRetry env.now (d.retry_count + 1) d) }
        [.updateJob msg.post_id (applyRetry env.now (d.retry_count + 1) d)] := by
    rw [process_message_valid env payload store0 msg hv hr]
    exact processRecord_retry env msg store0 d hj hs hrc hur
  constructor
  · intro m hP hge
    have horch : process_message env payload store0 =
        handleGenerationFailure env msg.post_id m
          { jobDoc := some (applyGenError env.now m (applyRetry env.now (d.retry_count + 1) d)), genDoc := store0.genDoc }
          [.updateJob msg.post_id (applyRetry env.now (d.retry_count + 1) d),
           .providerCall,
           .updateJob msg.post_id (applyGenError env.now m (applyRetry env.now (d.retry_count + 1) d))] := by
      rw [hred]
      exact runGeneration_orchError env msg _ _ m (applyRetry env.now (d.retry_count + 1) d) hA hP hge rfl
    refine ⟨?_, ?_, rfl, rfl, rfl, rfl⟩
    · intro hlt
      rw [horch]
      exact handleGenerationFailure_below env msg.post_id m _ _
        (applyGenError env.now m (applyRetry env.now (d.retry_count + 1) d)) rfl hlt huf
    · intro hge2
      rw [horch]
      exact handleGenerationFailure_atCeiling env msg.post_id m _ _
        (applyGenError env.now m (applyRetry env.now (d.retry_count + 1) d)) rfl hge2 huf
  · intro raw ue secs kw fc hP hx hk hf hsg huc hge2
    have hfail : process_message env payload store0 =
        handleGenerationFailure env msg.post_id ue
          { jobDoc := some (applyRetry env.now (d.retry_count + 1) d), genDoc := some (mkGeneratedPost env msg.post_id (effectiveTitle msg.post_id env.now msg.data) raw kw fc secs) }
          [.updateJob msg.post_id (applyRetry env.now (d.retry_count + 1) d),
           .providerCall,
           .saveGen msg.post_id (mkGeneratedPost env msg.post_id (effectiveTitle msg.post_id env.now msg.data) raw kw fc secs)] := by
      rw [hred]
      exact runGeneration_completeFail env msg _ _ raw ue secs kw fc hA hP hx hk hf hsg huc
    have hfin : process_message env payload store0 =
        (.ok msg.post_id,
         { jobDoc := some (applyFailurePermanent env.now ue d.max_retries (d.retry_count + 1) (applyRetry env.now (d.retry_count + 1) d)), genDoc := some (mkGeneratedPost env msg.post_id (effectiveTitle msg.post_id env.now msg.data) raw kw fc secs) },
         [.updateJob msg.post_id (applyRetry env.now (d.retry_count + 1) d),
          .providerCall,
          .saveGen msg.post_id (mkGeneratedPost env msg.post_id (effectiveTitle msg.post_id env.now msg.data) raw kw fc secs),
          .updateJob msg.post_id (applyFailurePermanent env.now ue d.max_retries (d.retry_count + 1) (applyRetry env.now (d.retry_count + 1) d))]) := by
      rw [hfail]
      exact handleGenerationFailure_atCeiling env msg.post_id ue _ _
        (applyRetry env.now (d.retry_count + 1) d) rfl hge2 huf
    refine ⟨hfin, ?_⟩
    rw [hfin]
    simp [Event.jobStatus, applyRetry, applyFailurePermanent]

/-- Witness for C1: a concrete provider failure below the ceiling writes
the error status (twice: the orchestrator-error update and the handler's
payload) and re-raises the provider's message. -/
theorem c1_witness :
    process_message { now := "T1", providerText := .error "boom2" }
      (.obj [("postId", .str "q6"), ("action", .str "created"),
             ("timestamp", .num 2), ("data", .obj [("id", .str "q6")])])
      { jobDoc := some { id := "q6", action := "created", timestamp := 2, status := "completed", blogPost := { id := "q6" }, processedAt := "T0", retry_count := 0, max_retries := 3 }, genDoc := none } =
      (.raised "boom2",
       { jobDoc := some (applyFailureError "T1" "boom2" 1 (applyGenError "T1" "boom2" (applyRetry "T1" 1 { id := "q6", action := "created", timestamp := 2, status := "completed", blogPost := { id := "q6" }, processedAt := "T0", retry_count := 0, max_retries := 3 }))), genDoc := none },
       [.updateJob "q6" (applyRetry "T1" 1 { id := "q6", action := "created", timestamp := 2, status := "completed", blogPost := { id := "q6" }, processedAt := "T0", retry_count := 0, max_retries := 3 }),
        .providerCall,
        .updateJob "q6" (applyGenError "T1" "boom2" (applyRetry "T1" 1 { id := "q6", action := "created", timestamp := 2, status := "completed", blogPost := { id := "q6" }, processedAt := "T0", retry_count := 0, max_retries := 3 })),
        .updateJob "q6" (applyFailureError "T1" "boom2" 1 (applyGenError "T1" "boom2" (applyRetry "T1" 1 { id := "q6", action := "created", timestamp := 2, status := "completed", blogPost := { id := "q6" }, processedAt := "T0", retry_count := 0, max_retries := 3 })))]) :=
  (((c1_generation_failure_path { now := "T1", providerText := .error "boom2" }
    (.obj [("postId", .str "q6"), ("action", .str "created"),
           ("timestamp", .num 2), ("data", .obj [("id", .str "q6")])])
    { jobDoc := some { id := "q6", action := "created", timestamp := 2, status := "completed", blogPost := { id := "q6" }, processedAt := "T0", retry_count := 0, max_retries := 3 }, genDoc := none }
    { post_id := "q6", action := "created", timestamp := 2, data := { id := "q6" } }
    { id := "q6", action := "created", timestamp := 2, status := "completed", blogPost := { id := "q6" }, processedAt := "T0", retry_count := 0, max_retries := 3 }
    rfl (by decide) rfl (by decide) (by decide) rfl rfl rfl).1
    "boom2" rfl rfl).1 (by decide))

/-- Counterexample to C1 as stated: when the final persist raises at the
ceiling, the record goes straight to failed_permanently — no status=error
write is ever persisted in the invocation, contradicting the claim's
"persists status=error ... then re-reads" for that trigger. -/
theorem c1_counterexample :
    (process_message { now := "T1", providerText := .ok "hello", updateComplete := .error "boom" }
      (.obj [("postId", .str "q7"), ("action", .str "created"),
             ("timestamp", .num 2), ("data", .obj [("id", .str "q7")])])
      { jobDoc := some { id := "q7", action := "created", timestamp := 2, status := "completed", blogPost := { id := "q7" }, processedAt := "T0", retry_count := 2, max_retries := 3 }, genDoc := none }).1 = .ok "q7" ∧
    ((process_message { now := "T1", providerText := .ok "hello", updateComplete := .error "boom" }
      (.obj [("postId", .str "q7"), ("action", .str "created"),
             ("timestamp", .num 2), ("data", .obj [("id", .str "q7")])])
      { jobDoc := some { id := "q7", action := "created", timestamp := 2, status := "completed", blogPost := { id := "q7" }, processedAt := "T0", retry_count := 2, max_retries := 3 }, genDoc := none }).2.2.filter
        (fun ev => ev.jobStatus = some "error")) = [] ∧
    ((process_message { now := "T1", providerText := .ok "hello", updateComplete := .error "boom" }
      (.obj [("postId", .str "q7"), ("action", .str "created"),
             ("timestamp", .num 2), ("data", .obj [("id", .str "q7")])])
      { jobDoc := some { id := "q7", action := "created", timestamp := 2, status := "completed", blogPost := { id := "q7" }, processedAt := "T0", retry_count := 2, max_retries := 3 }, genDoc := none }).2.1.jobDoc.map JobDoc.status) = some "failed_permanently" ∧
    ((process_message { now := "T1", providerText := .ok "hello", updateComplete := .error "boom" }
      (.obj [("postId", .str "q7"), ("action", .str "created"),
             ("timestamp", .num 2), ("data", .obj [("id", .str "q7")])])
      { jobDoc := some { id := "q7", action := "created", timestamp := 2, status := "completed", blogPost := { id := "q7" }, processedAt := "T0", retry_count := 2, max_retries := 3 }, genDoc := none }).2.1.jobDoc.map JobDoc.error) =
      some (some "Permanently failed after 3 retries. Last error: boom") := by
  exact ⟨rfl, rfl, rfl, rfl⟩

/-- Text that is not valid JSON makes the section extraction a caught
decode failure: the raw text is kept and sections stay empty. -/
theorem extractSections_unparseable (raw : String) (h : json_loads raw = none) :
    extractSections raw = .ok none := by
  unfold extractSections
  rw [h]

/-- A `sections` value that is an empty iterable (the empty string or an
empty object) is comprehended zero times: extraction succeeds with an
empty section list instead of raising. -/
theorem extractSections_empty_iterable (raw : String)
    (fields : List (String × PyJson))
    (hj : json_loads raw = some (.obj fields))
    (hsec : lookupKey fields "sections" = some (.str "") ∨
            lookupKey fields "sections" = some (.obj [])) :
    extractSections raw = .ok (some []) := by
  unfold extractSections
  rw [hj]
  rcases hsec with h | h <;> simp [h]

/-- Concrete empty-iterable `sections` values succeed with an empty
section list, as the comprehension does. -/
theorem extractSections_empty_iterable_concrete :
    extractSections "\x7b\"sections\": \"\"\x7d" = .ok (some []) ∧
    extractSections "\x7b\"sections\": \x7b\x7d\x7d" = .ok (some []) :=
  ⟨rfl, rfl⟩

/-- Claim C8 (amended): provider text that is not valid JSON at all is
kept as unstructured content — generation completes with the generated
outcome, the job reaches status=completed, and the stored generated post
carries the raw text with empty sections. Only the JSON decode failure
is caught, however: when the text parses as a JSON object with a
sections entry, the comprehension over that entry may raise past the
guard (items that are not valid subtitle/content mappings, or a
non-iterable value) and then the run becomes the error outcome; an
empty iterable sections value ("" or an empty object) comprehends to an
empty list and the run still completes. -/
theorem c8_unparseable_kept (env : Env) (payload : PyJson) (store0 : Store)
    (msg : BlogPostMessage) (d : JobDoc) (raw : String) (kw : List String)
    (fc : String)
    (hv : validateBlogPostMessage payload = .ok msg)
    (hr : msg.action ≠ "regenerate")
    (hj : store0.jobDoc = some d) (hs : d.status ≠ "failed_permanently")
    (hrc : d.retry_count < d.max_retries)
    (hur : env.updateRetry = .ok ()) (hA : env.adapterInit = .ok ())
    (hP : env.providerText = .ok raw)
    (hk : msg.data.keywords = some kw) (hf : msg.data.focus = some fc)
    (hsg : env.saveGenerated = .ok ()) (huc : env.updateComplete = .ok ()) :
    (json_loads raw = none →
       process_message env payload store0 =
         (.ok msg.post_id,
          { jobDoc := some (applyCompleted env.now msg.post_id raw none (applyRetry env.now (d.retry_count + 1) d)), genDoc := some (mkGeneratedPost env msg.post_id (effectiveTitle msg.post_id env.now msg.data) raw kw fc none) },
          [.updateJob msg.post_id (applyRetry env.now (d.retry_count + 1) d),
           .providerCall,
           .saveGen msg.post_id (mkGeneratedPost env msg.post_id (effectiveTitle msg.post_id env.now msg.data) raw kw fc none),
           .updateJob msg.post_id (applyCompleted env.now msg.post_id raw none (applyRetry env.now (d.retry_count + 1) d))]) ∧
       (applyCompleted env.now msg.post_id raw none (applyRetry env.now (d.retry_count + 1) d)).status = "completed" ∧
       (mkGeneratedPost env msg.post_id (effectiveTitle msg.post_id env.now msg.data) raw kw fc none).sections = none ∧
       (mkGeneratedPost env msg.post_id (effectiveTitle msg.post_id env.now msg.data) raw kw fc none).generated_content = some raw) ∧
    (∀ m, extractSections raw = .error m →
       (generate_blog_post env msg.post_id msg.data store0).1.status = "error" ∧
       (generate_blog_post env msg.post_id msg.data store0).1.error = some m) ∧
    (∀ fields, json_loads raw = some (.obj fields) →
       (lookupKey fields "sections" = some (.str "") ∨
        lookupKey fields "sections" = some (.obj [])) →
       process_message env payload store0 =
         (.ok msg.post_id,
          { jobDoc := some (applyCompleted env.now msg.post_id raw (some []) (applyRetry env.now (d.retry_count + 1) d)), genDoc := some (mkGeneratedPost env msg.post_id (effectiveTitle msg.post_id env.now msg.data) raw kw fc (some [])) },
          [.updateJob msg.post_id (applyRetry env.now (d.retry_count + 1) d),
           .providerCall,
           .saveGen msg.post_id (mkGeneratedPost env msg.post_id (effectiveTitle msg.post_id env.now msg.data) raw kw fc (some [])),
           .updateJob msg.post_id (applyCompleted env.now msg.post_id raw (some []) (applyRetry env.now (d.retry_count + 1) d))]) ∧
       (applyCompleted env.now msg.post_id raw (some []) (applyRetry env.now (d.retry_count + 1) d)).status = "completed" ∧
       (applyCompleted env.now msg.post_id raw (some []) (applyRetry env.now (d.retry_count + 1) d)).sections = none) := by
  refine ⟨?_, ?_, ?_⟩
  · intro hnj
    refine ⟨?_, rfl, rfl, rfl⟩
    rw [process_message_valid env payload store0 msg hv hr]
    rw [processRecord_retry env msg store0 d hj hs hrc hur]
    rw [runGeneration_success env msg
      { store0 with jobDoc := some (applyRetry env.now (d.retry_count + 1) d) }
      [.updateJob msg.post_id (applyRetry env.now (d.retry_count + 1) d)]
      raw none kw fc (applyRetry env.now (d.retry_count + 1) d)
      hA hP (extractSections_unparseable raw hnj) hk hf hsg huc rfl]
    rfl
  · intro m hx
    rw [generate_sections_error env msg.post_id msg.data store0 raw m hA hP hx]
    exact ⟨rfl, rfl⟩
  · intro fields hjf hsec
    refine ⟨?_, rfl, rfl⟩
    rw [process_message_valid env payload store0 msg hv hr]
    rw [processRecord_retry env msg store0 d hj hs hrc hur]
    rw [runGeneration_success env msg
      { store0 with jobDoc := some (applyRetry env.now (d.retry_count + 1) d) }
      [.updateJob msg.post_id (applyRetry env.now (d.retry_count + 1) d)]
      raw (some []) kw fc (applyRetry env.now (d.retry_count + 1) d)
      hA hP (extractSections_empty_iterable raw fields hjf hsec) hk hf hsg huc rfl]
    rfl

/-- Witness for C8: concrete non-JSON provider text ("hello") completes
the run, stores it as unstructured content, and the job is completed. -/
theorem c8_witness :
    process_message { now := "T1", providerText := .ok "hello" }
      (.obj [("postId", .str "q9"), ("action", .str "created"),
             ("timestamp", .num 2), ("data", .obj [("id", .str "q9")])])
      { jobDoc := some { id := "q9", action := "created", timestamp := 2, status := "error", blogPost := { id := "q9" }, processedAt := "T0", retry_count := 0, max_retries := 3 }, genDoc := none } =
      (.ok "q9",
       { jobDoc := some (applyCompleted "T1" "q9" "hello" none (applyRetry "T1" 1 { id := "q9", action := "created", timestamp := 2, status := "error", blogPost := { id := "q9" }, processedAt := "T0", retry_count := 0, max_retries := 3 })),
         genDoc := some (mkGeneratedPost { now := "T1", providerText := .ok "hello" } "q9" (effectiveTitle "q9" "T1" { id := "q9" }) "hello" [] "" none) },
       [.updateJob "q9" (applyRetry "T1" 1 { id := "q9", action := "created", timestamp := 2, status := "error", blogPost := { id := "q9" }, processedAt := "T0", retry_count := 0, max_retries := 3 }),
        .providerCall,
        .saveGen "q9" (mkGeneratedPost { now := "T1", providerText := .ok "hello" } "q9" (effectiveTitle "q9" "T1" { id := "q9" }) "hello" [] "" none),
        .updateJob "q9" (applyCompleted "T1" "q9" "hello" none (applyRetry "T1" 1 { id := "q9", action := "created", timestamp := 2, status := "error", blogPost := { id := "q9" }, processedAt := "T0", retry_count := 0, max_retries := 3 }))]) :=
  (((c8_unparseable_kept { now := "T1", providerText := .ok "hello" }
    (.obj [("postId", .str "q9"), ("action", .str "created"),
           ("timestamp", .num 2), ("data", .obj [("id", .str "q9")])])
    { jobDoc := some { id := "q9", action := "created", timestamp := 2, status := "error", blogPost := { id := "q9" }, processedAt := "T0", retry_count := 0, max_retries := 3 }, genDoc := none }
    { post_id := "q9", action := "created", timestamp := 2, data := { id := "q9" } }
    { id := "q9", action := "created", timestamp := 2, status := "error", blogPost := { id := "q9" }, processedAt := "T0", retry_count := 0, max_retries := 3 }
    "hello" [] ""
    rfl (by decide) rfl (by decide) (by decide) rfl rfl rfl rfl rfl rfl rfl).1 rfl).1)

/-- Counterexample to C8 as stated: provider text that is valid JSON with
a sections array whose element is not a subtitle/content pair fails the
pair validation — only JSONDecodeError is caught — so the run becomes an
error and the job ends in status=error instead of completed. -/
theorem c8_counterexample :
    extractSections "\x7b\"sections\": [\x7b\"foo\": 1\x7d]\x7d" =
      .error "validation error for BlogPostSection" ∧
    (generate_blog_post { now := "T1", providerText := .ok "\x7b\"sections\": [\x7b\"foo\": 1\x7d]\x7d" }
      "q10" { id := "q10" } { jobDoc := none, genDoc := none }).1.status = "error" ∧
    (process_message { now := "T1", providerText := .ok "\x7b\"sections\": [\x7b\"foo\": 1\x7d]\x7d" }
      (.obj [("postId", .str "q10"), ("action", .str "created"),
             ("timestamp", .num 2), ("data", .obj [("id", .str "q10")])])
      { jobDoc := none, genDoc := none }).1 =
      .raised "validation error for BlogPostSection" ∧
    ((process_message { now := "T1", providerText := .ok "\x7b\"sections\": [\x7b\"foo\": 1\x7d]\x7d" }
      (.obj [("postId", .str "q10"), ("action", .str "created"),
             ("timestamp", .num 2), ("data", .obj [("id", .str "q10")])])
      { jobDoc := none, genDoc := none }).2.1.jobDoc.map JobDoc.status) = some "error" := by
  exact ⟨rfl, rfl, rfl, rfl⟩

end Blogger
